import Mathlib

set_option maxRecDepth 100000

/-!
Verification of the Star-Attention data-generation and sweep-orchestration
scripts: a shallow embedding of `ruler/data/synthetic/common_words_extraction.py`
and `run_babilong.py`, with theorems about the embedded definitions.

External capabilities (the tokenizer, the seeded random sampler, the seeded
shuffle, and the prompt-template formatter) are modelled as explicit function
parameters bundled in `GenCaps`; the global Python RNG stream is modelled by a
call-index argument `st` that advances by one per `random.sample` call, so a
fixed `GenCaps.sample` renders the whole run deterministic in the seed.
-/

/-- External capabilities of the generator script: the tokenizer's
`text_to_tokens` length, `random.sample(words, n)` at a given call index, the
seeded `random.Random(seed).shuffle`, the `context_template.format(context=·)`
substitution, and `len(words)`. -/
@[ext]
structure GenCaps where
  tok : String → Nat
  sample : Nat → Nat → List String
  shuffleSeeded : List String → List String
  fmtContext : String → String
  poolLen : Nat

/-- CLI arguments of `common_words_extraction.py` that the generator reads. -/
structure GenArgs where
  maxSeqLength : Nat
  tokensToGenerate : Nat
  numCw : Nat
  freqCw : Nat
  freqUcw : Nat
  queryTemplate : String
  removeNewlineTab : Bool

/-- Python list repetition `l * n`. -/
def listRepeat (l : List String) (n : Nat) : List String :=
  (List.replicate n l).flatten

/-- The rendering `' '.join([f"{i + 1}. {word}" for i, word in enumerate(ws)])`. -/
def enumJoin (ws : List String) : String :=
  String.intercalate " " (ws.enum.map (fun p => toString (p.1 + 1) ++ ". " ++ p.2))

/-- The function `get_example(num_words, common_repeats, uncommon_repeats, common_nums)`:
sample `numWords` words at RNG call index `st`, split into a common prefix and
an uncommon suffix, repeat, shuffle with the seeded shuffler, and render the
enumerated list; returns `(context, common)`. -/
def getExample (caps : GenCaps) (st numWords commonRepeats uncommonRepeats commonNums : Nat) :
    String × List String :=
  let wordListFull := caps.sample st numWords
  let common := wordListFull.take commonNums
  let uncommon := wordListFull.drop commonNums
  let wordList := caps.shuffleSeeded (listRepeat common commonRepeats ++ listRepeat uncommon uncommonRepeats)
  (enumJoin wordList, common)

/-- The function `generate_input_output(num_words)`: a fixed few-shot example followed by the
main context; shaping is `(20, 3, 1)` / `(·, 6, 1)` below the 4096 threshold and
`(40, 10, 3)` / `(·, freq_cw, freq_ucw)` at or above it.  The two
`get_example` calls consume the RNG call indices `st` and `st + 1` in order. -/
def generateInputOutput (A : GenArgs) (caps : GenCaps) (st numWords : Nat) :
    String × String × List String :=
  if A.maxSeqLength < 4096 then
    let pEx := getExample caps st 20 3 1 A.numCw
    let p := getExample caps (st + 1) numWords 6 1 A.numCw
    (caps.fmtContext pEx.1 ++ A.queryTemplate ++ enumJoin pEx.2 ++ "\n" ++ caps.fmtContext p.1,
     A.queryTemplate, p.2)
  else
    let pEx := getExample caps st 40 10 3 A.numCw
    let p := getExample caps (st + 1) numWords A.freqCw A.freqUcw A.numCw
    (caps.fmtContext pEx.1 ++ A.queryTemplate ++ enumJoin pEx.2 ++ "\n" ++ caps.fmtContext p.1,
     A.queryTemplate, p.2)

/-- Tokenized length measured during calibration:
`len(TOKENIZER.text_to_tokens(context + query + ' ' + ' '.join(enumerated answer)))`. -/
def trialLen (caps : GenCaps) (A : GenArgs) (st numWords : Nat) : Nat :=
  let r := generateInputOutput A caps st numWords
  caps.tok (r.1 ++ r.2.1 ++ " " ++ enumJoin r.2.2)

/-- The calibration `while` loop of `sys_word_pair_random`, fuel-indexed.
State: current `num_words`, previous `total_tokens`, RNG call index.  Each
iteration measures a trial example (consuming two RNG calls), rolls back one
increment on budget overflow, and otherwise grows by the increment, capping at
the word-pool size.  Returns the final `num_words` and RNG index. -/
def calLoop (caps : GenCaps) (A : GenArgs) (inc : Nat) :
    Nat → Nat → Nat → Nat → Nat × Nat
  | 0, numWords, _, st => (numWords, st)
  | fuel + 1, numWords, totalTokens, st =>
    if totalTokens + A.tokensToGenerate < A.maxSeqLength then
      let t := trialLen caps A st numWords
      if A.maxSeqLength < t + A.tokensToGenerate then (numWords - inc, st + 2)
      else
        let n2 := numWords + inc
        if caps.poolLen < n2 then (caps.poolLen, st + 2)
        else calLoop caps A inc fuel n2 t (st + 2)
    else (numWords, st)

/-- The calibration search: starts from `increment` items with `total_tokens = 0`
at RNG call index 0.  The fuel `poolLen + 1` bounds the iteration count, since
`num_words` grows by at least one per iteration and is capped at the pool size. -/
def calibrate (caps : GenCaps) (A : GenArgs) (inc : Nat) : Nat × Nat :=
  calLoop caps A inc (caps.poolLen + 1) inc 0 0

/-- Per-attempt measured length in the sampling loop:
`len(TOKENIZER.text_to_tokens(context + query)) + tokens_to_generate`. -/
def attemptLen (caps : GenCaps) (A : GenArgs) (st numWords : Nat) : Nat :=
  let r := generateInputOutput A caps st numWords
  caps.tok (r.1 ++ r.2.1) + A.tokensToGenerate

/-- The local state of the per-sample `while True` loop at its `break`. -/
structure Attempt where
  used : Nat
  st : Nat
  ctx : String
  qry : String
  ans : List String
  len : Nat
deriving DecidableEq, Inhabited

/-- The per-sample `while True` retry loop: build an example, measure
`attemptLen`, stop if it fits the budget; otherwise shrink `used_words` by the
increment when it is still above the increment, and retry.  The bare `except:`
branch of the source has no failure signal, so the loop is fuel-indexed and
yields `none` when the fuel runs out without a fitting attempt. -/
def sampleLoop (caps : GenCaps) (A : GenArgs) (inc : Nat) :
    Nat → Nat → Nat → Option Attempt × Nat
  | 0, _, st => (none, st)
  | fuel + 1, used, st =>
    let r := generateInputOutput A caps st used
    let len := caps.tok (r.1 ++ r.2.1) + A.tokensToGenerate
    if len ≤ A.maxSeqLength then (some ⟨used, st, r.1, r.2.1, r.2.2, len⟩, st + 2)
    else sampleLoop caps A inc fuel (if inc < used then used - inc else used) (st + 2)

/-- One generated dataset record (`formatted_output` in the source). -/
structure Example where
  index : Nat
  inputContext : String
  inputQuery : String
  outputs : List String
  length : Nat
deriving DecidableEq, Inhabited

/-- The normalization `' '.join(s.replace('\n', ' ').replace('\t', ' ').strip().split())`. -/
def normalizeWs (s : String) : String :=
  String.intercalate " "
    ((((s.replace "\n" " ").replace "\t" " ").split (fun c => c = ' ')).filter (fun t => t ≠ ""))

/-- Build the `formatted_output` record from a successful attempt. -/
def mkRecord (A : GenArgs) (idx : Nat) (att : Attempt) : Example :=
  { index := idx,
    inputContext := if A.removeNewlineTab then normalizeWs att.ctx else att.ctx,
    inputQuery := if A.removeNewlineTab then normalizeWs att.qry else att.qry,
    outputs := att.ans,
    length := att.len }

/-- The `for index in tqdm(range(num_samples))` loop: each sample restarts the
retry loop at the calibrated `num_words`; `none` models a sample whose retry
loop never terminates (in which case no further record is produced). -/
def genLoop (caps : GenCaps) (A : GenArgs) (inc fuel : Nat) :
    Nat → Nat → Nat → Nat → Option (List Example)
  | 0, _, _, _ => some []
  | cnt + 1, idx, numWords, st =>
    match sampleLoop caps A inc fuel numWords st with
    | (some att, st2) =>
      (genLoop caps A inc fuel cnt (idx + 1) numWords st2).map (fun rest => mkRecord A idx att :: rest)
    | (none, _) => none

/-- The function `sys_word_pair_random(num_samples, max_seq_length, save_dir, incremental)`:
calibrate, then generate `ns` records. -/
def sysWordPairRandom (caps : GenCaps) (A : GenArgs) (inc ns fuel : Nat) :
    Option (List Example) :=
  let c := calibrate caps A inc
  genLoop caps A inc fuel ns 0 c.1 c.2

/-!
Shallow embedding of the sweep orchestrator `run_babilong.py`.  The filesystem
(`os.path.exists`) is the external capability `pathExists : String → Bool`;
`BASE_DIR` and the joined stop-word string are plain string parameters.  A
dispatched job is recorded by `submit_job(cmd, log_dir, filename)`, which first
writes `cmd` to `log_dir/filename` and then executes it, so one `JobRecord`
stands for both the written record file and the dispatched command.
-/

/-- CLI arguments of `run_babilong.py`. -/
structure OrchArgs where
  modelName : String
  modelPath : String
  promptConfig : String
  attnType : String
  blockSize : Int
  anchorBlockSize : Int
  seqLengths : List Int
  tasks : List String
  numNodes : Int
  nprocPerNode : Option Int
  outputDir : String
  pregenDataDir : Option String

/-- One job handed to `submit_job`: the command-record file `fileName` written
under `logDir`, holding exactly the command `cmd` that is then executed. -/
structure JobRecord where
  logDir : String
  fileName : String
  cmd : String
deriving DecidableEq, Inhabited

/-- Path joining `os.path.join` on two components. -/
def pjoin (a b : String) : String := a ++ "/" ++ b

/-- Whether `pat` is a leading segment of `cs`. -/
def leadMatch : List Char → List Char → Bool
  | [], _ => true
  | _ :: _, [] => false
  | p :: ps, c :: cs => p = c && leadMatch ps cs

/-- Whether `pat` occurs as a contiguous segment of `cs`. -/
def segOccurs (pat : List Char) : List Char → Bool
  | [] => leadMatch pat []
  | c :: cs => leadMatch pat (c :: cs) || segOccurs pat cs

/-- Python's `pat in s` substring test. -/
def strContains (s pat : String) : Bool := segOccurs pat.data s.data

/-- The supported split names (`SPLIT_NAMES`). -/
def SPLIT_NAMES : List String := ["16k", "32k", "64k", "128k"]

/-- The representation `f'{seq_length // 1024}k'`. -/
def seqLenRepr (sl : Int) : String := toString (Int.fdiv sl 1024) ++ "k"

/-- The per-sequence-length validation `f'{seq_length // 1024}k' in SPLIT_NAMES`. -/
def seqLenOk (sl : Int) : Bool := SPLIT_NAMES.contains (seqLenRepr sl)

/-- The `nproc_per_node is not None and nproc_per_node > 0` validation. -/
def nprocPositive : Option Int → Bool
  | some np => decide (0 < np)
  | none => false

/-- The derivation `min(nproc_per_node, seq_length // block_size)` (Python `//`
is floor division, i.e. `Int.fdiv`). -/
def nprocForSeqLen (ceiling sl bs : Int) : Int := min ceiling (Int.fdiv sl bs)

/-- The data-generation command (`data_gen_cmd` in `main`). -/
def dataGenCmd (bd dataDir task seqRepr promptConfig : String) : String :=
  "python babilong/prepare_data.py " ++
  "--download_dir " ++ pjoin (pjoin bd "dataset") "babilong" ++ " " ++
  "--output_dir " ++ dataDir ++ " " ++
  "--tasks " ++ task ++ " " ++
  "--split_names " ++ seqRepr ++ " " ++
  "--model_template_type " ++ promptConfig ++ " "

/-- The inference command (`task_gen_cmd` in `main`), a literal rendering of
the f-string concatenation, including its missing space between
`--output_path {...}.jsonl` and `--stop_words`. -/
def taskGenCmd (ex mp at2 : String) (bs as2 : Int) (dataFile outBase sw : String) : String :=
  ex ++ " run_star_attn_inference.py " ++
  "--model_path " ++ mp ++ " " ++
  "--attn_type " ++ at2 ++ " " ++
  "--block_size " ++ toString bs ++ " " ++
  "--anchor_block_size " ++ toString as2 ++ " " ++
  "--tokens_to_generate 128 " ++
  "--input_path " ++ dataFile ++ " " ++
  "--output_path " ++ outBase ++ ".jsonl" ++
  "--stop_words " ++ sw

/-- The body of the `for seq_length in seq_lengths` loop: the list of jobs
recorded and dispatched for one sequence length.  A star-mode point whose
`block_size + anchor_block_size` exceeds the sequence length is skipped
(empty list, no record written); otherwise each task gets a data-generation
job when no pre-generated file exists, followed by an inference job. -/
def jobsForSeqLen (pe : String → Bool) (A : OrchArgs) (bd sw : String) (sl : Int) :
    List JobRecord :=
  let seqRepr := seqLenRepr sl
  if strContains A.attnType "star" = true ∧ sl < A.blockSize + A.anchorBlockSize then []
  else
    let executor :=
      if A.attnType ≠ "dense" then
        "torchrun --nnodes=" ++ toString A.numNodes ++ " --nproc_per_node=" ++
          toString (nprocForSeqLen (A.nprocPerNode.getD 0) sl A.blockSize)
      else "python"
    let resultsDir := pjoin A.outputDir seqRepr
    let logDir := pjoin resultsDir "logs"
    let dataDir := pjoin resultsDir "data"
    (A.tasks.map (fun task =>
      let taskLogDir := pjoin logDir task
      let pregenFile := A.pregenDataDir.map (fun d =>
        pjoin (pjoin (pjoin (pjoin bd "dataset") d) seqRepr) (task ++ "_" ++ seqRepr ++ ".jsonl"))
      let needGen :=
        match pregenFile with
        | none => true
        | some f => !(pe f)
      let dataFile :=
        match pregenFile with
        | some f => if pe f then f else pjoin dataDir (task ++ "_" ++ seqRepr ++ ".jsonl")
        | none => pjoin dataDir (task ++ "_" ++ seqRepr ++ ".jsonl")
      let genJobs : List JobRecord :=
        if needGen then
          [⟨taskLogDir, "data_generation.sh", dataGenCmd bd dataDir task seqRepr A.promptConfig⟩]
        else []
      genJobs ++
        [⟨taskLogDir, "generate_predictions.sh",
          taskGenCmd executor A.modelPath A.attnType A.blockSize A.anchorBlockSize
            dataFile (pjoin resultsDir task) sw⟩])).flatten

/-- The function `main(...)`: the leading `assert block_size >= anchor_block_size` for star
attention, then one batch of jobs per requested sequence length. -/
def mainRun (pe : String → Bool) (A : OrchArgs) (bd sw : String) :
    Except String (List (Int × List JobRecord)) :=
  if strContains A.attnType "star" = true ∧ A.blockSize < A.anchorBlockSize then
    .error "block_size must be greater than anchor_block_size"
  else
    .ok (A.seqLengths.map (fun sl => (sl, jobsForSeqLen pe A bd sw sl)))

/-- The `__main__` block: the four validations in source order, then `main`.
Any violation aborts before a single job is built or recorded. -/
def orchestrate (pe : String → Bool) (A : OrchArgs) (bd sw : String) :
    Except String (List (Int × List JobRecord)) :=
  if ¬ (A.seqLengths.all seqLenOk = true) then
    .error "seq_length must be one of SPLIT_NAMES"
  else if strContains A.attnType "star" = true ∧ A.blockSize ≤ 0 then
    .error "block_size must be greater than 0"
  else if ¬ (A.attnType = "dense") ∧ nprocPositive A.nprocPerNode = false then
    .error "nproc_per_node must be greater than 0"
  else if ¬ (A.attnType = "dense") ∧ A.numNodes ≤ 0 then
    .error "num_nodes must be greater than 0"
  else if pe A.modelPath = false then
    .error "model path not found"
  else mainRun pe A bd sw

/-- Whether an orchestration run completed without a configuration error. -/
def runOk (e : Except String (List (Int × List JobRecord))) : Bool :=
  match e with
  | .ok _ => true
  | .error _ => false

/-!
Concrete configurations used by witnesses and counterexamples.  The tokenizer
capability in each is an explicit total function, so every run below evaluates
inside the kernel.
-/

/-- A character-count tokenizer over a pool of empty words; `trialLen` grows
strictly with the item count under this capability set. -/
def capsChar : GenCaps where
  tok := String.length
  sample := fun _ n => List.replicate n ""
  shuffleSeeded := fun l => l
  fmtContext := fun c => c
  poolLen := 1000

/-- Budget hitting the first calibration trial exactly:
`trialLen capsChar argsEq 0 10 = 132` and `132 + 5 = 137 = maxSeqLength`. -/
def argsEq : GenArgs where
  maxSeqLength := 137
  tokensToGenerate := 5
  numCw := 0
  freqCw := 30
  freqUcw := 3
  queryTemplate := ""
  removeNewlineTab := false

/-- Budget strictly between the first and second calibration trials:
`132 + 5 < 138 < 182 + 5`. -/
def argsStrict : GenArgs where
  maxSeqLength := 138
  tokensToGenerate := 5
  numCw := 0
  freqCw := 30
  freqUcw := 3
  queryTemplate := ""
  removeNewlineTab := false

/-- Trial length as a function of the item count alone under `capsChar`
and `argsStrict` (the capability set is RNG-state independent). -/
def L1 (n : Nat) : Nat := trialLen capsChar argsStrict 0 n

/-- A tokenizer reporting a constant length far above any budget: every
attempt of the per-sample retry loop overflows. -/
def capsOver : GenCaps where
  tok := fun _ => 1000
  sample := fun _ n => List.replicate n ""
  shuffleSeeded := fun l => l
  fmtContext := fun c => c
  poolLen := 100

/-- A small budget no attempt can meet under `capsOver`. -/
def argsOver : GenArgs where
  maxSeqLength := 100
  tokensToGenerate := 5
  numCw := 0
  freqCw := 30
  freqUcw := 3
  queryTemplate := ""
  removeNewlineTab := false

/-- The per-sample retry loop never terminates from `used` items: no fuel
bound ever yields a result (and the source has no failure signal to raise). -/
def sampleLoopDiverges (caps : GenCaps) (A : GenArgs) (inc used : Nat) : Prop :=
  ∀ fuel st, (sampleLoop caps A inc fuel used st).1 = none

/-- A zero-length tokenizer with distinct sampled words: every attempt fits,
so one-sample runs succeed and their records evaluate concretely. -/
def capsFit : GenCaps where
  tok := fun _ => 0
  sample := fun _ n => (List.range n).map (fun i => "w" ++ toString i)
  shuffleSeeded := fun l => l
  fmtContext := fun c => c
  poolLen := 5

/-- A second capability set extensionally equal to `capsFit` but with a
syntactically different tokenizer. -/
def capsFit2 : GenCaps where
  tok := fun s => 0 * s.length
  sample := fun _ n => (List.range n).map (fun i => "w" ++ toString i)
  shuffleSeeded := fun l => l
  fmtContext := fun c => c
  poolLen := 5

/-- Arguments for the fitting runs: two common words per example. -/
def argsFit : GenArgs where
  maxSeqLength := 100
  tokensToGenerate := 5
  numCw := 2
  freqCw := 30
  freqUcw := 3
  queryTemplate := " Q"
  removeNewlineTab := false

/-- The dataset produced by a one-sample run under `capsFit`. -/
def recordsFit : List Example := (sysWordPairRandom capsFit argsFit 10 1 3).getD []

/-- The single record of `recordsFit`. -/
def recordFit : Example := recordsFit.headI

/-- The successful attempt of a `sampleLoop` run under `capsFit`. -/
def attemptFit : Attempt := ((sampleLoop capsFit argsFit 10 1 5 2).1).getD default

/-- A filesystem on which every path exists. -/
def peAll : String → Bool := fun _ => true

/-- A star-attention sweep passing every `__main__` validation whose default
`anchor_block_size = -1` lets `block_size = 16385 > seq_length = 16384`
through the skip check, driving the computed process count to 0. -/
def zeroProcArgs : OrchArgs where
  modelName := "m"
  modelPath := "/models/llama"
  promptConfig := "pc"
  attnType := "star"
  blockSize := 16385
  anchorBlockSize := -1
  seqLengths := [16384]
  tasks := ["qa1"]
  numNodes := 1
  nprocPerNode := some 8
  outputDir := "out"
  pregenDataDir := none

/-- A ring-attention sweep with `block_size + anchor_block_size > seq_length`:
the skip check tests only star-style attention, so this point is dispatched. -/
def ringArgs : OrchArgs where
  modelName := "m"
  modelPath := "/models/llama"
  promptConfig := "pc"
  attnType := "ring"
  blockSize := 16000
  anchorBlockSize := 16000
  seqLengths := [16384]
  tasks := ["qa1"]
  numNodes := 1
  nprocPerNode := some 4
  outputDir := "out"
  pregenDataDir := none

/-- A star-attention sweep whose only sequence length fails the window check
`block_size + anchor_block_size ≤ seq_length` while satisfying the ordering
`anchor_block_size ≤ block_size`. -/
def starSkipArgs : OrchArgs where
  modelName := "m"
  modelPath := "/models/llama"
  promptConfig := "pc"
  attnType := "star"
  blockSize := 16000
  anchorBlockSize := 900
  seqLengths := [16384]
  tasks := ["qa1"]
  numNodes := 1
  nprocPerNode := some 4
  outputDir := "out"
  pregenDataDir := none

/-- The documented rejection scenario: `seq_length = 16384`,
`block_size = 4096`, `anchor_block_size = 8192`, star attention. -/
def anchorTooBigArgs : OrchArgs where
  modelName := "m"
  modelPath := "/models/llama"
  promptConfig := "pc"
  attnType := "star"
  blockSize := 4096
  anchorBlockSize := 8192
  seqLengths := [16384]
  tasks := ["qa1"]
  numNodes := 1
  nprocPerNode := some 8
  outputDir := "out"
  pregenDataDir := none

/-!
Helper lemmas about the generator loops.
-/

/-- A successful attempt of the retry loop satisfies the budget check, carries
the example built at its own RNG state and item count, and records the
measured length. -/
theorem sampleLoop_some_spec (caps : GenCaps) (A : GenArgs) (inc : Nat) :
    ∀ fuel used st att, (sampleLoop caps A inc fuel used st).1 = some att →
      att.len ≤ A.maxSeqLength ∧
      generateInputOutput A caps att.st att.used = (att.ctx, att.qry, att.ans) ∧
      att.len = caps.tok (att.ctx ++ att.qry) + A.tokensToGenerate := by
  intro fuel
  induction fuel with
  | zero => intro u st att h; exact absurd h (by simp [sampleLoop])
  | succ f ih =>
    intro u st att h
    simp only [sampleLoop] at h
    split at h
    · simp only [Option.some.injEq] at h
      subst h
      refine ⟨by assumption, ?_, rfl⟩
      rfl
    · exact ih _ _ _ h

/-- When every attempt overflows the budget, the retry loop never produces a
result, whatever the fuel: the source's bare `except:` raises nothing. -/
theorem sampleLoop_none_of_over (caps : GenCaps) (A : GenArgs) (inc : Nat)
    (h : ∀ st n, A.maxSeqLength < attemptLen caps A st n) :
    ∀ fuel used st, (sampleLoop caps A inc fuel used st).1 = none := by
  intro fuel
  induction fuel with
  | zero => intro u st; rfl
  | succ f ih =>
    intro u st
    simp only [sampleLoop]
    rw [if_neg]
    · exact ih _ _
    · have hov := h st u
      simp only [attemptLen] at hov
      exact not_le.mpr hov

/-- The answer component of `generate_input_output` is, in both shaping
regimes, the first `num_cw` words of the list sampled for the main context. -/
theorem genIO_ans (A : GenArgs) (caps : GenCaps) (st n : Nat) :
    (generateInputOutput A caps st n).2.2 = (caps.sample (st + 1) n).take A.numCw := by
  simp only [generateInputOutput, getExample]
  split <;> rfl

/-- Every record in a completed generation run keeps its measured length
within the configured maximum. -/
theorem genLoop_mem_le (caps : GenCaps) (A : GenArgs) (inc fuel : Nat) :
    ∀ cnt idx numWords st l, genLoop caps A inc fuel cnt idx numWords st = some l →
      ∀ e ∈ l, e.length ≤ A.maxSeqLength := by
  intro cnt
  induction cnt with
  | zero =>
    intro idx nw st l h e he
    simp only [genLoop, Option.some.injEq] at h
    subst h
    simp at he
  | succ c ih =>
    intro idx nw st l h e he
    simp only [genLoop] at h
    rcases hs : sampleLoop caps A inc fuel nw st with ⟨o, st2⟩
    rw [hs] at h
    cases o with
    | none => simp at h
    | some att =>
      dsimp only at h
      rcases hrest : genLoop caps A inc fuel c (idx + 1) nw st2 with _ | rest
      · rw [hrest] at h; simp at h
      · rw [hrest] at h
        simp only [Option.map_some', Option.some.injEq] at h
        subst h
        rcases List.mem_cons.mp he with he1 | he2
        · have hatt : (sampleLoop caps A inc fuel nw st).1 = some att := by rw [hs]
          have := (sampleLoop_some_spec caps A inc fuel nw st att hatt).1
          rw [he1]
          exact this
        · exact ih (idx + 1) nw st2 rest hrest e he2

/-- Trajectory of the calibration loop when the trial length depends only on
the item count: if the trials at `inc, 2·inc, …, (j-1)·inc` all fit strictly
under the budget and the trial at `j·inc ≤ poolLen` overflows it, the loop,
entered at any multiple `s·inc` with `1 ≤ s ≤ j` and a fitting previous
measurement, rolls back exactly once and returns `(j-1)·inc`. -/
theorem calLoop_reaches (caps : GenCaps) (A : GenArgs) (inc : Nat) (L : Nat → Nat) (j : Nat)
    (hstate : ∀ st n, trialLen caps A st n = L n)
    (hover : A.maxSeqLength < L (j * inc) + A.tokensToGenerate)
    (hunder : ∀ s, 1 ≤ s → s < j → L (s * inc) + A.tokensToGenerate < A.maxSeqLength)
    (hpool : j * inc ≤ caps.poolLen) :
    ∀ fuel s t st, 1 ≤ s → s ≤ j → j - s < fuel →
      t + A.tokensToGenerate < A.maxSeqLength →
      (calLoop caps A inc fuel (s * inc) t st).1 = (j - 1) * inc := by
  intro fuel
  induction fuel with
  | zero => intro s t st h1 h2 h3 h4; omega
  | succ f ih =>
    intro s t st h1 h2 h3 h4
    simp only [calLoop]
    rw [if_pos h4, hstate]
    by_cases hs : s = j
    · subst hs
      rw [if_pos hover]
      have hj1 : s = (s - 1) + 1 := by omega
      simp only
      calc s * inc - inc = ((s - 1) + 1) * inc - inc := by rw [← hj1]
        _ = (s - 1) * inc + inc - inc := by rw [Nat.succ_mul]
        _ = (s - 1) * inc := by omega
    · have hsj : s < j := lt_of_le_of_ne h2 hs
      have hu := hunder s h1 hsj
      rw [if_neg (not_lt.mpr (le_of_lt hu))]
      have hstep : s * inc + inc = (s + 1) * inc := (Nat.succ_mul s inc).symm
      have hcap : ¬ (caps.poolLen < s * inc + inc) := by
        rw [hstep]
        exact not_lt.mpr (le_trans (Nat.mul_le_mul (by omega) (le_refl inc)) hpool)
      rw [if_neg hcap, hstep]
      exact ih (s + 1) (L (s * inc)) (st + 2) (by omega) (by omega) (by omega) hu

/-!
Claim theorems.
-/

/-- Claim C1, counterexample: with the character-count tokenizer `capsChar`
and a valid configuration (`max_seq_length = 137`, `tokens_to_generate = 5`,
`increment = 10`), the first trial measures 132 tokens, so
`132 + 5 = 137` hits the budget exactly; the `while` guard then exits without
rolling back and calibration returns 20 items, whose trial length `182` plus
`tokens_to_generate` exceeds `max_seq_length` — the returned count was never
validated, refuting boundary-tightness as claimed. -/
theorem calibrate_equality_exit_cex :
    (calibrate capsChar argsEq 10).1 = 20 ∧
    argsEq.maxSeqLength <
      trialLen capsChar argsEq 0 (calibrate capsChar argsEq 10).1 + argsEq.tokensToGenerate := by
  have h1 : (calibrate capsChar argsEq 10).1 = 20 := by rfl
  refine ⟨h1, ?_⟩
  rw [h1]
  decide

/-- Claim C1 (amended): when the trial length is a function `L` of the item
count alone, the first trial at `increment` items fits strictly under the
budget, and some multiple `j·increment` of the item count within the word pool
overflows the budget while every earlier multiple fits strictly (so no trial
hits the budget exactly and the pool cap is not reached first), calibration
returns a count `k` with `L k + tokens_to_generate ≤ max_seq_length` and
`max_seq_length < L (k + increment) + tokens_to_generate`. -/
theorem calibrate_boundary (caps : GenCaps) (A : GenArgs) (inc : Nat) (L : Nat → Nat) (j : Nat)
    (hstate : ∀ st n, trialLen caps A st n = L n)
    (hinc : 1 ≤ inc) (hj : 2 ≤ j) (hpool : j * inc ≤ caps.poolLen)
    (hover : A.maxSeqLength < L (j * inc) + A.tokensToGenerate)
    (hunder : ∀ s, 1 ≤ s → s < j → L (s * inc) + A.tokensToGenerate < A.maxSeqLength) :
    L (calibrate caps A inc).1 + A.tokensToGenerate ≤ A.maxSeqLength ∧
    A.maxSeqLength < L ((calibrate caps A inc).1 + inc) + A.tokensToGenerate := by
  have hfirst := hunder 1 (le_refl 1) (by omega)
  have ht0 : 0 + A.tokensToGenerate < A.maxSeqLength :=
    lt_of_le_of_lt (Nat.add_le_add_right (Nat.zero_le _) _) hfirst
  have hjp : j ≤ j * inc := by
    calc j = j * 1 := (Nat.mul_one j).symm
      _ ≤ j * inc := Nat.mul_le_mul (le_refl j) hinc
  have hrun : (calibrate caps A inc).1 = (j - 1) * inc := by
    have h := calLoop_reaches caps A inc L j hstate hover hunder hpool
      (caps.poolLen + 1) 1 0 0 (le_refl 1) (by omega) (by omega) ht0
    rw [one_mul] at h
    exact h
  rw [hrun]
  constructor
  · exact le_of_lt (hunder (j - 1) (by omega) (by omega))
  · have hstep : (j - 1) * inc + inc = j * inc := by
      calc (j - 1) * inc + inc = ((j - 1) + 1) * inc := (Nat.succ_mul (j - 1) inc).symm
        _ = j * inc := by congr 1; omega
    rw [hstep]
    exact hover

/-- Claim C1, witness: under `capsChar` with `max_seq_length = 138` the first
trial (132 + 5) fits strictly and the second (182 + 5) overflows, so the
amended boundary-tightness theorem applies with `j = 2` and calibration
returns 10. -/
theorem calibrate_boundary_case :
    L1 (calibrate capsChar argsStrict 10).1 + argsStrict.tokensToGenerate ≤
      argsStrict.maxSeqLength ∧
    argsStrict.maxSeqLength <
      L1 ((calibrate capsChar argsStrict 10).1 + 10) + argsStrict.tokensToGenerate :=
  calibrate_boundary capsChar argsStrict 10 L1 2 (fun _ _ => rfl) (by omega) (by omega)
    (by decide) (by decide)
    (fun s h1 h2 => by
      have hs : s = 1 := by omega
      subst hs
      decide)

/-- Claim C2, helper fact reused by its theorem and witness: under `capsOver`
every attempt overflows the budget of `argsOver`. -/
theorem capsOver_always_over : ∀ st n, argsOver.maxSeqLength < attemptLen capsOver argsOver st n := by
  intro st n
  have h : attemptLen capsOver argsOver st n = 1005 := rfl
  have h2 : argsOver.maxSeqLength = 100 := rfl
  rw [h, h2]
  omega

/-- Claim C2 (amended): the retry loop shrinks the item count by one increment
per overflowing attempt while it is above the increment floor, but the source
contains no failure signal: when every attempt overflows the budget, the loop
never terminates — no fuel bound yields an example, and no error is ever
raised. -/
theorem sample_shrink_never_signals (caps : GenCaps) (A : GenArgs) (inc : Nat)
    (h : ∀ st n, A.maxSeqLength < attemptLen caps A st n) (fuel used st : Nat) :
    (sampleLoop caps A inc fuel used st).1 = none ∧
    sampleLoop caps A inc (fuel + 1) used st =
      sampleLoop caps A inc fuel (if inc < used then used - inc else used) (st + 2) := by
  refine ⟨sampleLoop_none_of_over caps A inc h fuel used st, ?_⟩
  simp only [sampleLoop]
  rw [if_neg]
  have hov := h st used
  simp only [attemptLen] at hov
  exact not_le.mpr hov

/-- Claim C2, witness: the amended theorem applied at `capsOver`, fuel 5,
10 items, RNG index 0. -/
theorem sample_shrink_never_signals_case :
    (sampleLoop capsOver argsOver 10 5 10 0).1 = none :=
  (sample_shrink_never_signals capsOver argsOver 10 capsOver_always_over 5 10 0).1

/-- Claim C2, counterexample: under `capsOver` the per-sample loop started at
10 items diverges — for every fuel bound it has produced neither an example
nor any failure signal, refuting the claimed `GenerationInfeasible` report. -/
theorem sample_loop_diverges_cex : sampleLoopDiverges capsOver argsOver 10 10 :=
  fun fuel st => sampleLoop_none_of_over capsOver argsOver 10 capsOver_always_over fuel 10 st

/-- Floor division of positive integers with a divisor at most the dividend is
at least 1 (proved from the core `Int.fdiv` case analysis, matching Python's
`//`). -/
theorem one_le_fdiv {sl bs : Int} (hb : 0 < bs) (hbs : bs ≤ sl) : 1 ≤ Int.fdiv sl bs := by
  rcases sl with m | m
  · rcases bs with n | n
    · have hn : 0 < n := Int.ofNat_lt.mp hb
      have hmn : n ≤ m := Int.ofNat_le.mp hbs
      rcases m with _ | m2
      · exact absurd hmn (by omega)
      · have h : Int.fdiv (Int.ofNat (m2 + 1)) (Int.ofNat n) = Int.ofNat ((m2 + 1) / n) := rfl
        rw [h]
        have h1 : Int.ofNat 1 ≤ Int.ofNat ((m2 + 1) / n) :=
          Int.ofNat_le.mpr ((Nat.one_le_div_iff hn).mpr hmn)
        exact h1
    · have := Int.negSucc_lt_zero n
      omega
  · have hsl : 0 < Int.negSucc m := lt_of_lt_of_le hb hbs
    have := Int.negSucc_lt_zero m
    omega

/-- Claim C3, counterexample: the star sweep `zeroProcArgs` (default
`anchor_block_size = -1`, `block_size = 16385`, `seq_length = 16384`) passes
every validation and the skip check, so its jobs are dispatched, yet the
computed per-node process count `min(8, 16384 // 16385)` is 0, not ≥ 1. -/
theorem nproc_zero_dispatched_cex :
    nprocForSeqLen 8 16384 16385 = 0 ∧
    ¬ (1 ≤ nprocForSeqLen 8 16384 16385) ∧
    runOk (orchestrate peAll zeroProcArgs "BASE" "sw") = true ∧
    (jobsForSeqLen peAll zeroProcArgs "BASE" "sw" 16384).length = 2 := by
  refine ⟨by decide, by decide, ?_, ?_⟩ <;> rfl

/-- Claim C3 (amended): the computed per-node process count equals
`min(process_count_ceiling, sequence_length // block_size)` and never exceeds
the ceiling; it is at least 1 whenever the ceiling is at least 1 and
`0 < block_size ≤ sequence_length` (as guaranteed when a nonnegative anchor
block size passes the skip check), but a negative anchor block size lets
`block_size > sequence_length` through, making the count 0. -/
theorem nproc_min_bounds (ceiling sl bs : Int) (hc : 1 ≤ ceiling) (hb : 0 < bs)
    (hbs : bs ≤ sl) :
    nprocForSeqLen ceiling sl bs = min ceiling (Int.fdiv sl bs) ∧
    nprocForSeqLen ceiling sl bs ≤ ceiling ∧
    1 ≤ nprocForSeqLen ceiling sl bs :=
  ⟨rfl, min_le_left _ _, le_min hc (one_le_fdiv hb hbs)⟩

/-- Claim C3, witness: the amended bounds at ceiling 8, sequence length 16384,
block size 4096. -/
theorem nproc_min_bounds_case :
    nprocForSeqLen 8 16384 4096 = min 8 (Int.fdiv 16384 4096) ∧
    nprocForSeqLen 8 16384 4096 ≤ 8 ∧
    1 ≤ nprocForSeqLen 8 16384 4096 :=
  nproc_min_bounds 8 16384 4096 (by omega) (by omega) (by omega)

/-- Claim C4, counterexample: the ring-attention sweep `ringArgs` has
`block_size + anchor_block_size = 32000 > 16384 = seq_length`, yet the skip
check tests only star-style attention, so the point passes validation and two
job records are written and dispatched for it. -/
theorem overflow_dispatched_for_ring_cex :
    ((16000 : Int) + 16000 > 16384) ∧
    strContains ringArgs.attnType "star" = false ∧
    runOk (orchestrate peAll ringArgs "BASE" "sw") = true ∧
    (jobsForSeqLen peAll ringArgs "BASE" "sw" 16384).length = 2 := by
  refine ⟨by decide, by decide, ?_, ?_⟩ <;> rfl

/-- Claim C4 (amended): for star-style attention, a sequence length with
`block_size + anchor_block_size > sequence_length` is excluded from dispatch —
no job is dispatched and no job command record is produced for it — and, when
the ordering constraint holds, the run still completes without error (the
point is skipped, not failed). -/
theorem star_overflow_skipped (pe : String → Bool) (A : OrchArgs) (bd sw : String) (sl : Int)
    (h1 : strContains A.attnType "star" = true)
    (h2 : sl < A.blockSize + A.anchorBlockSize)
    (h3 : A.anchorBlockSize ≤ A.blockSize) :
    jobsForSeqLen pe A bd sw sl = [] ∧
    mainRun pe A bd sw =
      Except.ok (A.seqLengths.map (fun s => (s, jobsForSeqLen pe A bd sw s))) := by
  constructor
  · simp only [jobsForSeqLen]
    rw [if_pos ⟨h1, h2⟩]
  · simp only [mainRun]
    rw [if_neg]
    rintro ⟨-, hlt⟩
    omega

/-- Claim C4, witness: the star sweep `starSkipArgs`
(`16000 + 900 > 16384` with `900 ≤ 16000`) produces no jobs and no records
for sequence length 16384. -/
theorem star_overflow_skipped_case :
    jobsForSeqLen peAll starSkipArgs "BASE" "sw" 16384 = [] :=
  (star_overflow_skipped peAll starSkipArgs "BASE" "sw" 16384 (by decide) (by decide)
    (by decide)).1

/-- Claim C5: every record of a completed generation run satisfies the budget
invariant — its recorded token length (tokenized context+query plus the
reserved `tokens_to_generate`) is at most the configured maximum sequence
length, equivalently the tokenized prompt is at most
`max_seq_length - tokens_to_generate`. -/
theorem example_length_within_budget (caps : GenCaps) (A : GenArgs) (inc ns fuel : Nat)
    (l : List Example) (e : Example)
    (h : sysWordPairRandom caps A inc ns fuel = some l) (he : e ∈ l) :
    e.length ≤ A.maxSeqLength := by
  unfold sysWordPairRandom at h
  exact genLoop_mem_le caps A inc fuel ns 0 (calibrate caps A inc).1 (calibrate caps A inc).2
    l h e he

/-- Claim C5, witness: the one-sample run under `capsFit` completes and its
record's length is within the budget. -/
theorem example_length_within_budget_case : recordFit.length ≤ argsFit.maxSeqLength :=
  example_length_within_budget capsFit argsFit 10 1 3 recordsFit recordFit rfl (by decide)

/-- Claim C6: two runs of the generator with extensionally identical
capabilities (same tokenizer, same seed-derived sampler and shuffler, same
templates and pool) and identical arguments produce identical datasets —
every random choice is a function of the seed-derived capabilities and the
parameters, so a fixed seed reproduces the output byte for byte. -/
theorem generator_deterministic (c1 c2 : GenCaps) (A1 A2 : GenArgs) (inc ns fuel : Nat)
    (htok : ∀ s, c1.tok s = c2.tok s)
    (hsample : ∀ st n, c1.sample st n = c2.sample st n)
    (hshuffle : ∀ l, c1.shuffleSeeded l = c2.shuffleSeeded l)
    (hfmt : ∀ s, c1.fmtContext s = c2.fmtContext s)
    (hpool : c1.poolLen = c2.poolLen)
    (hargs : A1 = A2) :
    sysWordPairRandom c1 A1 inc ns fuel = sysWordPairRandom c2 A2 inc ns fuel := by
  subst hargs
  have hc : c1 = c2 :=
    GenCaps.ext (funext htok) (funext (fun st => funext (hsample st)))
      (funext hshuffle) (funext hfmt) hpool
  rw [hc]

/-- Claim C6, witness: `capsFit` and `capsFit2` differ syntactically in their
tokenizer but agree extensionally, so the two one-sample runs coincide. -/
theorem generator_deterministic_case :
    sysWordPairRandom capsFit argsFit 10 1 3 = sysWordPairRandom capsFit2 argsFit 10 1 3 :=
  generator_deterministic capsFit capsFit2 argsFit argsFit 10 1 3
    (fun s => (Nat.zero_mul s.length).symm) (fun _ _ => rfl) (fun _ => rfl) (fun _ => rfl)
    rfl rfl

/-- Claim C7: a successful attempt of the retry loop was built by
`generate_input_output` at its own RNG state and item count, and its answer —
hence the `outputs` field of the record built from it — is exactly the first
`num_cw` words of the list sampled for its context, in sampling order. -/
theorem outputs_match_common (caps : GenCaps) (A : GenArgs) (inc fuel u st idx : Nat)
    (att : Attempt) (h : (sampleLoop caps A inc fuel u st).1 = some att) :
    generateInputOutput A caps att.st att.used = (att.ctx, att.qry, att.ans) ∧
    att.ans = (caps.sample (att.st + 1) att.used).take A.numCw ∧
    (mkRecord A idx att).outputs = (caps.sample (att.st + 1) att.used).take A.numCw := by
  have hg := (sampleLoop_some_spec caps A inc fuel u st att h).2.1
  have hans : att.ans = (caps.sample (att.st + 1) att.used).take A.numCw := by
    have h2 := genIO_ans A caps att.st att.used
    rw [hg] at h2
    exact h2
  exact ⟨hg, hans, hans⟩

/-- Claim C7, witness: the successful attempt `attemptFit` yields a record
whose `outputs` are the two common words `["w0", "w1"]` sampled for it. -/
theorem outputs_match_common_case :
    (mkRecord argsFit 0 attemptFit).outputs =
      (capsFit.sample (attemptFit.st + 1) attemptFit.used).take argsFit.numCw :=
  (outputs_match_common capsFit argsFit 10 1 5 2 0 attemptFit rfl).2.2

/-- Claim C8: every configuration validation of the orchestrator happens
before any job is built or dispatched — an unsupported sequence length, a
nonpositive block size for star attention, a missing or nonpositive process
count or nonpositive node count for non-dense attention, a missing model
path, or a star anchor block size exceeding the block size each abort the run
with a configuration error, producing no job list at all. -/
theorem validation_aborts_before_dispatch (pe : String → Bool) (A : OrchArgs) (bd sw : String)
    (h : ¬ (A.seqLengths.all seqLenOk = true)
       ∨ (strContains A.attnType "star" = true ∧ A.blockSize ≤ 0)
       ∨ (¬ (A.attnType = "dense") ∧ nprocPositive A.nprocPerNode = false)
       ∨ (¬ (A.attnType = "dense") ∧ A.numNodes ≤ 0)
       ∨ pe A.modelPath = false
       ∨ (strContains A.attnType "star" = true ∧ A.blockSize < A.anchorBlockSize)) :
    runOk (orchestrate pe A bd sw) = false := by
  unfold orchestrate
  by_cases h1 : ¬ (A.seqLengths.all seqLenOk = true)
  · rw [if_pos h1]; rfl
  · rw [if_neg h1]
    by_cases h2 : strContains A.attnType "star" = true ∧ A.blockSize ≤ 0
    · rw [if_pos h2]; rfl
    · rw [if_neg h2]
      by_cases h3 : ¬ (A.attnType = "dense") ∧ nprocPositive A.nprocPerNode = false
      · rw [if_pos h3]; rfl
      · rw [if_neg h3]
        by_cases h4 : ¬ (A.attnType = "dense") ∧ A.numNodes ≤ 0
        · rw [if_pos h4]; rfl
        · rw [if_neg h4]
          by_cases h5 : pe A.modelPath = false
          · rw [if_pos h5]; rfl
          · rw [if_neg h5]
            unfold mainRun
            by_cases h6 : strContains A.attnType "star" = true ∧ A.blockSize < A.anchorBlockSize
            · rw [if_pos h6]; rfl
            · exact absurd h (by tauto)

/-- Claim C8, witness: the documented scenario (`seq_length = 16384`,
`block_size = 4096`, `anchor_block_size = 8192`, star) aborts before any job
is built: the ordering assertion fires although every earlier check passes. -/
theorem validation_aborts_before_dispatch_case :
    runOk (orchestrate peAll anchorTooBigArgs "BASE" "sw") = false :=
  validation_aborts_before_dispatch peAll anchorTooBigArgs "BASE" "sw" (by decide)

/-- Claim C9: every inference command built by the orchestrator concatenates
the output path and the stop-words flag with no separating space — the command
string decomposes as `… ++ ".jsonl--stop_words " ++ stop_words`, so the
rendered invocation is not a well-formed space-separated argument list. -/
theorem task_gen_cmd_missing_space (ex mp at2 : String) (bs as2 : Int)
    (dataFile outBase sw : String) :
    ∃ p, taskGenCmd ex mp at2 bs as2 dataFile outBase sw =
      p ++ ".jsonl--stop_words " ++ sw := by
  refine ⟨ex ++ " run_star_attn_inference.py " ++ "--model_path " ++ mp ++ " " ++
    "--attn_type " ++ at2 ++ " " ++ "--block_size " ++ toString bs ++ " " ++
    "--anchor_block_size " ++ toString as2 ++ " " ++ "--tokens_to_generate 128 " ++
    "--input_path " ++ dataFile ++ " " ++ "--output_path " ++ outBase, ?_⟩
  unfold taskGenCmd
  rw [String.append_assoc _ ".jsonl" "--stop_words "]
  have hlit : (".jsonl" : String) ++ "--stop_words " = ".jsonl--stop_words " := rfl
  rw [hlit]

/-- Claim C10: below the 4096-token threshold, generation is invariant under
the caller-supplied `freq_cw` and `freq_ucw` — the produced triple is
identical for any two values of each — and the example is built with the
fixed shaping `(20, 3, 1)` for the few-shot prefix and repeats `(6, 1)` for
the main context. -/
theorem small_regime_ignores_freqs (A : GenArgs) (caps : GenCaps) (f1 g1 f2 g2 st n : Nat)
    (h : A.maxSeqLength < 4096) :
    generateInputOutput { A with freqCw := f1, freqUcw := g1 } caps st n =
      generateInputOutput { A with freqCw := f2, freqUcw := g2 } caps st n ∧
    (generateInputOutput A caps st n).2.2 = (getExample caps (st + 1) n 6 1 A.numCw).2 ∧
    (generateInputOutput A caps st n).1 =
      caps.fmtContext (getExample caps st 20 3 1 A.numCw).1 ++ A.queryTemplate ++
        enumJoin (getExample caps st 20 3 1 A.numCw).2 ++ "\n" ++
        caps.fmtContext (getExample caps (st + 1) n 6 1 A.numCw).1 := by
  refine ⟨?_, ?_, ?_⟩
  · simp only [generateInputOutput]
    rw [if_pos h, if_pos h]
  · simp only [generateInputOutput]
    rw [if_pos h]
  · simp only [generateInputOutput]
    rw [if_pos h]

/-- Claim C10, witness: with `max_seq_length = 100 < 4096`, changing
`freq_cw`/`freq_ucw` from `(99, 77)` to `(44, 33)` leaves the generated
triple unchanged. -/
theorem small_regime_ignores_freqs_case :
    generateInputOutput { argsFit with freqCw := 99, freqUcw := 77 } capsFit 0 3 =
      generateInputOutput { argsFit with freqCw := 44, freqUcw := 33 } capsFit 0 3 :=
  (small_regime_ignores_freqs argsFit capsFit 99 77 44 33 0 3 (by decide)).1
